import Mathlib

/-!
Shallow embedding of `src/lib/cfclient/utils/inputreaders/linuxjsdev.py`
(the Linux jsdev joystick driver of the crazyflie client).

Modelling conventions:
* Python floats are modelled as exact rationals: every value produced by the
  code is a 16-bit integer divided by 32768.0, which an IEEE double represents
  exactly, so rational arithmetic is faithful.
* Python lists are mutable heap objects. `self.axes` / `self.buttons` hold
  references to list objects; `read` returns those references. We model the
  heap explicitly as a store of list cells addressed by naturals, so that
  aliasing between a returned snapshot and the internal state is observable.
* The device file is modelled as a script of outcomes of successive
  `jsfile.read(8)` + `struct.unpack` steps: a successfully unpacked record,
  an `IOError` with an errno, or data that `struct.unpack` rejects. An empty
  script means the next read would signal would-block (`EAGAIN`).
* Exceptions are modelled with `Except`; the state accompanying an error is
  the state at raise time (Python exceptions do not roll back mutations).
-/

/-- Errors raised by the Python code: `IOError` carrying an errno,
`struct.error` from unpacking, `IndexError` from an out-of-bounds list
assignment, and a generic `Exception` with its message string. -/
inductive PyError where
  | ioError (errno : Nat)
  | structError
  | indexError
  | exception (msg : String)
deriving DecidableEq

/-- The errno a read on a non-blocking descriptor signals when no data is
queued (would-block). -/
def EAGAIN : Nat := 11

/-- Event type bit: button (source line 55). -/
def JS_EVENT_BUTTON : Nat := 0x001

/-- Event type bit: axis (source line 56). -/
def JS_EVENT_AXIS : Nat := 0x002

/-- Event type bit: synthetic initial-value replay (source line 57). -/
def JS_EVENT_INIT : Nat := 0x080

/-- Semantic event kind constant for buttons (source line 80). -/
def TYPE_BUTTON : Nat := 1

/-- Semantic event kind constant for axes (source line 81). -/
def TYPE_AXIS : Nat := 2

/-- One jsdev event record as unpacked by `struct.unpack("@IhBB", data)`:
unsigned 32-bit timestamp, signed 16-bit value, unsigned 8-bit type bitmask,
unsigned 8-bit control index. -/
structure JSData where
  time : Nat
  value : Int
  etype : Nat
  number : Nat
deriving DecidableEq

/-- The `JEvent` class: a decoded joystick event (source lines 66-77). -/
structure JEvent where
  etype : Nat
  number : Nat
  value : ℚ
deriving DecidableEq

/-- A heap of Python list objects (the cells `self.axes` and `self.buttons`
point to). Addresses are indices into `cells`. -/
structure Heap where
  cells : List (List ℚ)
deriving DecidableEq

/-- Dereference a list object; unallocated addresses read as the empty list. -/
def Heap.get (h : Heap) (a : Nat) : List ℚ :=
  h.cells.getD a []

/-- Overwrite the contents of the list object at address `a` in place. -/
def Heap.set (h : Heap) (a : Nat) (v : List ℚ) : Heap :=
  ⟨h.cells.set a v⟩

/-- Allocate a fresh list object, returning the new heap and its address. -/
def Heap.alloc (h : Heap) (v : List ℚ) : Heap × Nat :=
  (⟨h.cells ++ [v]⟩, h.cells.length)

/-- The mutable fields of a `Joystick` instance. `axes` and `buttons` are
heap addresses of the two list objects; `jsfileOpen` models whether
`self.jsfile` is an open OS handle. -/
structure Joystick where
  opened : Bool
  buttons : Nat
  axes : Nat
  jsfileOpen : Bool
  device_id : Int
deriving DecidableEq

/-- `Joystick.__init__` (source lines 88-95): fresh empty `buttons` and
`axes` list objects, no file, `device_id = -1`. -/
def Joystick.init (h : Heap) : Heap × Joystick :=
  let hb := h.alloc []
  let ha := hb.1.alloc []
  (ha.1, { opened := false, buttons := hb.2, axes := ha.2,
           jsfileOpen := false, device_id := -1 })

/-- Outcome of one `jsfile.read(8)` + `struct.unpack` step of the device
stream: a full record, an `IOError` with an errno raised by the read, or
short/garbled data rejected by `struct.unpack`. -/
inductive ReadOutcome where
  | record (e : JSData)
  | ioErr (errno : Nat)
  | badData
deriving DecidableEq

/-- The error or record one scripted read step produces. -/
def recordOf : ReadOutcome → Except PyError JSData
  | .record e => .ok e
  | .ioErr n => .error (.ioError n)
  | .badData => .error .structError

/-- `Joystick.__updatestate` (source lines 158-163): fold one unpacked record
into the absolute state. The axis branch is tested first; it stores
`value / 32768.0` into `self.axes[number]`, while the button branch stores the
raw `value` into `self.buttons[number]`. A Python list assignment with an
index at or past the end raises `IndexError` and leaves the list unchanged. -/
def Joystick.updatestate (h : Heap) (self : Joystick) (jsdata : JSData) :
    Except PyError Heap :=
  if jsdata.etype &&& JS_EVENT_AXIS ≠ 0 then
    if jsdata.number < (h.get self.axes).length then
      .ok (h.set self.axes
        ((h.get self.axes).set jsdata.number ((jsdata.value : ℚ) / 32768)))
    else .error .indexError
  else if jsdata.etype &&& JS_EVENT_BUTTON ≠ 0 then
    if jsdata.number < (h.get self.buttons).length then
      .ok (h.set self.buttons
        ((h.get self.buttons).set jsdata.number (jsdata.value : ℚ)))
    else .error .indexError
  else .ok h

/-- `Joystick.__decode_event` (source lines 165-175): decode one record into a
`JEvent`. Both the axis and the button branch divide the value by `32768.0`;
a record with neither bit set falls off the end (returns `None`). -/
def Joystick.decode_event (jsdata : JSData) : Option JEvent :=
  if jsdata.etype &&& JS_EVENT_AXIS ≠ 0 then
    some { etype := TYPE_AXIS, number := jsdata.number,
           value := (jsdata.value : ℚ) / 32768 }
  else if jsdata.etype &&& JS_EVENT_BUTTON ≠ 0 then
    some { etype := TYPE_BUTTON, number := jsdata.number,
           value := (jsdata.value : ℚ) / 32768 }
  else none

/-- `Joystick._read_all_events` (source lines 177-185): drain the queued
records, folding each into state, inside `try: ... except IOError: pass`.
Any `IOError` from the read (the except clause names the whole class, with no
errno test) ends the drain without error; a `struct.error` from unpacking or
an `IndexError` from the fold is not an `IOError` and propagates. An
exhausted script means the next read would signal `EAGAIN`, which the except
clause also swallows. -/
def Joystick.read_all_events (h : Heap) (self : Joystick) :
    List ReadOutcome → Except PyError Unit × Heap × List ReadOutcome
  | [] => (.ok (), h, [])
  | o :: rest =>
    match recordOf o with
    | .error (.ioError _) => (.ok (), h, rest)
    | .error e => (.error e, h, rest)
    | .ok jsdata =>
      match self.updatestate h jsdata with
      | .ok h2 => Joystick.read_all_events h2 self rest
      | .error e => (.error e, h, rest)

/-- `Joystick.__initvalues` (source lines 151-156): read exactly
`len(self.axes) + len(self.buttons)` records, folding each into state, with
no exception handler: any `IOError`, `struct.error` or `IndexError`
propagates. -/
def Joystick.initvalues : Nat → Heap → Joystick → List ReadOutcome →
    Except PyError Unit × Heap × List ReadOutcome
  | 0, h, _, env => (.ok (), h, env)
  | n + 1, h, self, env =>
    match env with
    | [] => (.error (.ioError EAGAIN), h, [])
    | o :: rest =>
      match recordOf o with
      | .error e => (.error e, h, rest)
      | .ok jsdata =>
        match self.updatestate h jsdata with
        | .ok h2 => Joystick.initvalues n h2 self rest
        | .error e => (.error e, h, rest)

/-- `Joystick.read` (source lines 187-194): raise when not opened (before any
mutation), otherwise drain and return `[self.axes, self.buttons]` — the two
internal list objects themselves, i.e. their heap addresses, not copies. -/
def Joystick.read (h : Heap) (self : Joystick) (env : List ReadOutcome) :
    Except PyError (Nat × Nat) × Heap × Joystick × List ReadOutcome :=
  if self.opened = false then
    (.error (.exception "Joystick device not opened"), h, self, env)
  else
    match Joystick.read_all_events h self env with
    | (.ok _, h2, env2) => (.ok (self.axes, self.buttons), h2, self, env2)
    | (.error e, h2, env2) => (.error e, h2, self, env2)

/-- `Joystick.close` (source lines 143-149): a no-op when not opened,
otherwise close the handle and clear the opened flag. -/
def Joystick.close (self : Joystick) : Joystick :=
  if self.opened = false then self
  else { self with jsfileOpen := false, opened := false }

/-- What the OS supplies to `open`: the two `ioctl` results (return code and
reported count for `JSIOCGAXES` and `JSIOCGBUTTONS`) and the script of reads
available on the freshly opened handle. -/
structure DeviceNode where
  axesIoctlRet : Int
  axesCount : Nat
  buttonsIoctlRet : Int
  buttonsCount : Nat
  queue : List ReadOutcome
deriving DecidableEq

/-- `Joystick.open` (source lines 114-141), named `openDevice` because `open`
is a Lean keyword. Raise only when already opened with a different id;
otherwise (also when reopening the same id) run the full procedure: record
the id, open the device file, query the axis count and allocate a fresh
all-zero axes list, query the button count and allocate a fresh all-zero
buttons list, drain the initial values, and set the opened flag. A failed
capability query closes the file and raises. -/
def Joystick.openDevice (h : Heap) (self : Joystick) (node : DeviceNode)
    (device_id : Int) :
    Except PyError Unit × Heap × Joystick × List ReadOutcome :=
  if self.opened = true ∧ device_id ≠ self.device_id then
    (.error (.exception "A joystick is already opened"), h, self, node.queue)
  else
    let s1 : Joystick := { self with device_id := device_id, jsfileOpen := true }
    if node.axesIoctlRet ≠ 0 then
      (.error (.exception "Failed to read number of axes"), h,
        { s1 with jsfileOpen := false }, node.queue)
    else
      let ha := h.alloc (List.replicate node.axesCount 0)
      let s2 : Joystick := { s1 with axes := ha.2 }
      if node.buttonsIoctlRet ≠ 0 then
        (.error (.exception "Failed to read number of axes"), ha.1,
          { s2 with jsfileOpen := false }, node.queue)
      else
        let hb := ha.1.alloc (List.replicate node.buttonsCount 0)
        let s3 : Joystick := { s2 with buttons := hb.2 }
        match Joystick.initvalues
            ((hb.1.get s3.axes).length + (hb.1.get s3.buttons).length)
            hb.1 s3 node.queue with
        | (.ok _, h3, rest) => (.ok (), h3, { s3 with opened := true }, rest)
        | (.error e, h3, rest) => (.error e, h3, s3, rest)

/-- One entry under `/sys/class/input/js*`: its numeric suffix and the
contents of its `device/name` attribute file, `none` when that file is
missing or unreadable (so that opening it raises `IOError`, errno `ENOENT`
modelled as 2). -/
structure SysEntry where
  id : Int
  name : Option String
deriving DecidableEq

/-- A device descriptor as returned by `Joystick.devices`:
the dict with keys `id` and `name`. -/
structure DeviceDescriptor where
  id : Int
  name : String
deriving DecidableEq

/-- `Joystick.devices` (source lines 97-112): for each sysfs entry, open and
read its name file (stripping whitespace) and append a descriptor. There is
no per-entry exception handling: a missing or unreadable name file raises
`IOError` out of the whole call, discarding every descriptor. -/
def Joystick.devices : List SysEntry → Except PyError (List DeviceDescriptor)
  | [] => .ok []
  | e :: rest =>
    match e.name with
    | none => .error (.ioError 2)
    | some contents =>
      match Joystick.devices rest with
      | .ok ds => .ok ({ id := e.id, name := contents.trim } :: ds)
      | .error err => .error err

/-- A caller-visible operation on an opened instance, for stating that no
subsequent operation resizes the state arrays. -/
inductive JoyOp where
  | jread (env : List ReadOutcome)
  | jclose
deriving DecidableEq

/-- Run one caller operation, keeping the heap and instance. -/
def Joystick.step (s : Heap × Joystick) (op : JoyOp) : Heap × Joystick :=
  match op with
  | .jread env => ((Joystick.read s.1 s.2 env).2.1, (Joystick.read s.1 s.2 env).2.2.1)
  | .jclose => (s.1, Joystick.close s.2)

/-- Run a sequence of caller operations. -/
def Joystick.run (s : Heap × Joystick) : List JoyOp → Heap × Joystick
  | [] => s
  | op :: ops => Joystick.run (Joystick.step s op) ops

/-- Decidable equality of results, used to evaluate concrete runs. -/
instance {e a : Type} [DecidableEq e] [DecidableEq a] :
    DecidableEq (Except e a) := fun x y =>
  match x, y with
  | .ok u, .ok v =>
    if h : u = v then isTrue (by rw [h])
    else isFalse (by intro hc; cases hc; exact h rfl)
  | .ok _, .error _ => isFalse (by intro hc; cases hc)
  | .error _, .ok _ => isFalse (by intro hc; cases hc)
  | .error u, .error v =>
    if h : u = v then isTrue (by rw [h])
    else isFalse (by intro hc; cases hc; exact h rfl)

/-! ## Generic lemmas about list cells -/

theorem getD_set_self {α : Type} (l : List α) (n : Nat) (v d : α)
    (h : n < l.length) : (l.set n v).getD n d = v := by
  induction l generalizing n with
  | nil => simp at h
  | cons a t ih =>
    cases n with
    | zero => rfl
    | succ m => exact ih m (Nat.lt_of_succ_lt_succ h)

theorem getD_set_ne {α : Type} (l : List α) (m n : Nat) (v d : α)
    (h : m ≠ n) : (l.set m v).getD n d = l.getD n d := by
  induction l generalizing m n with
  | nil => rfl
  | cons a t ih =>
    cases m with
    | zero =>
      cases n with
      | zero => exact absurd rfl h
      | succ k => rfl
    | succ m' =>
      cases n with
      | zero => rfl
      | succ k => exact ih m' k fun hc => h (by rw [hc])

theorem length_getD_set {α : Type} (l : List (List α)) (m n : Nat)
    (v : List α) (hv : v.length = (l.getD m []).length) :
    ((l.set m v).getD n []).length = (l.getD n []).length := by
  induction l generalizing m n with
  | nil => rfl
  | cons a t ih =>
    cases m with
    | zero =>
      cases n with
      | zero => exact hv
      | succ k => rfl
    | succ m' =>
      cases n with
      | zero => rfl
      | succ k => exact ih m' k hv

theorem getD_append_self {α : Type} (l : List α) (v d : α) :
    (l ++ [v]).getD l.length d = v := by
  induction l with
  | nil => rfl
  | cons a t ih => exact ih

theorem getD_append_lt {α : Type} (l : List α) (v d : α) (n : Nat)
    (h : n < l.length) : (l ++ [v]).getD n d = l.getD n d := by
  induction l generalizing n with
  | nil => simp at h
  | cons a t ih =>
    cases n with
    | zero => rfl
    | succ m => exact ih m (Nat.lt_of_succ_lt_succ h)

/-! ## Basic facts about the state fold -/

theorem updatestate_error_eq (h : Heap) (self : Joystick) (e : JSData)
    (err : PyError) (he : self.updatestate h e = .error err) :
    err = .indexError := by
  unfold Joystick.updatestate at he
  split at he
  · split at he
    · exact absurd he (by simp)
    · exact (Except.error.injEq _ _).mp he.symm
  · split at he
    · split at he
      · exact absurd he (by simp)
      · exact (Except.error.injEq _ _).mp he.symm
    · exact absurd he (by simp)

theorem updatestate_ok_length (h : Heap) (self : Joystick) (e : JSData)
    (h2 : Heap) (he : self.updatestate h e = .ok h2) (a : Nat) :
    (h2.get a).length = (h.get a).length := by
  unfold Joystick.updatestate at he
  split at he
  · split at he
    · cases he
      exact length_getD_set _ _ _ _ (by simp [Heap.get])
    · exact absurd he (by simp)
  · split at he
    · split at he
      · cases he
        exact length_getD_set _ _ _ _ (by simp [Heap.get])
      · exact absurd he (by simp)
    · cases he
      rfl

/-! ## Facts about the drain loop -/

theorem read_all_events_length (self : Joystick) :
    ∀ (env : List ReadOutcome) (h : Heap) (a : Nat),
      (((Joystick.read_all_events h self env).2.1).get a).length
        = (h.get a).length := by
  intro env
  induction env with
  | nil => intro h a; rfl
  | cons o rest ih =>
    intro h a
    cases o with
    | record e =>
      simp only [Joystick.read_all_events, recordOf]
      cases hu : self.updatestate h e with
      | ok h2 =>
        rw [ih h2 a]
        exact updatestate_ok_length h self e h2 hu a
      | error e2 => rfl
    | ioErr n => rfl
    | badData => rfl

theorem read_all_events_error (self : Joystick) :
    ∀ (env : List ReadOutcome) (h : Heap) (err : PyError),
      (Joystick.read_all_events h self env).1 = Except.error err →
      err = PyError.indexError ∨ err = PyError.structError := by
  intro env
  induction env with
  | nil => intro h err he; exact absurd he (by simp [Joystick.read_all_events])
  | cons o rest ih =>
    intro h err he
    cases o with
    | record e =>
      simp only [Joystick.read_all_events, recordOf] at he
      cases hu : self.updatestate h e with
      | ok h2 =>
        rw [hu] at he
        exact ih h2 err he
      | error e2 =>
        rw [hu] at he
        simp at he
        exact Or.inl (he ▸ updatestate_error_eq h self e e2 hu)
    | ioErr n => exact absurd he (by simp [Joystick.read_all_events, recordOf])
    | badData =>
      simp [Joystick.read_all_events, recordOf] at he
      exact Or.inr he.symm

/-! ## Facts about the initial-value drain -/

theorem initvalues_length (self : Joystick) :
    ∀ (n : Nat) (h : Heap) (env : List ReadOutcome) (a : Nat),
      (((Joystick.initvalues n h self env).2.1).get a).length
        = (h.get a).length := by
  intro n
  induction n with
  | zero => intro h env a; rfl
  | succ m ih =>
    intro h env a
    cases env with
    | nil => rfl
    | cons o rest =>
      cases o with
      | record e =>
        simp only [Joystick.initvalues, recordOf]
        cases hu : self.updatestate h e with
        | ok h2 =>
          rw [ih h2 rest a]
          exact updatestate_ok_length h self e h2 hu a
        | error e2 => rfl
      | ioErr k => rfl
      | badData => rfl

theorem initvalues_ok_env (self : Joystick) :
    ∀ (n : Nat) (h : Heap) (env : List ReadOutcome) (h2 : Heap)
      (env2 : List ReadOutcome),
      Joystick.initvalues n h self env = (Except.ok (), h2, env2) →
      env2.length + n = env.length := by
  intro n
  induction n with
  | zero =>
    intro h env h2 env2 he
    simp only [Joystick.initvalues] at he
    simp at he
    simp [← he.2]
  | succ m ih =>
    intro h env h2 env2 he
    cases env with
    | nil => exact absurd he (by simp [Joystick.initvalues])
    | cons o rest =>
      cases o with
      | record e =>
        simp only [Joystick.initvalues, recordOf] at he
        cases hu : self.updatestate h e with
        | ok hh =>
          rw [hu] at he
          have := ih hh rest h2 env2 he
          simp [List.length_cons]
          omega
        | error e2 =>
          rw [hu] at he
          exact absurd he (by simp)
      | ioErr k =>
        exact absurd he (by simp [Joystick.initvalues, recordOf])
      | badData =>
        exact absurd he (by simp [Joystick.initvalues, recordOf])

theorem initvalues_error_not_exception (self : Joystick) :
    ∀ (n : Nat) (h : Heap) (env : List ReadOutcome) (err : PyError)
      (h2 : Heap) (env2 : List ReadOutcome),
      Joystick.initvalues n h self env = (Except.error err, h2, env2) →
      ∀ msg, err ≠ PyError.exception msg := by
  intro n
  induction n with
  | zero =>
    intro h env err h2 env2 he
    exact absurd he (by simp [Joystick.initvalues])
  | succ m ih =>
    intro h env err h2 env2 he
    cases env with
    | nil =>
      simp [Joystick.initvalues] at he
      intro msg
      rw [← he.1]
      simp
    | cons o rest =>
      cases o with
      | record e =>
        simp only [Joystick.initvalues, recordOf] at he
        cases hu : self.updatestate h e with
        | ok hh =>
          rw [hu] at he
          exact ih hh rest err h2 env2 he
        | error e2 =>
          rw [hu] at he
          simp at he
          intro msg
          rw [← he.1, updatestate_error_eq h self e e2 hu]
          simp
      | ioErr k =>
        simp [Joystick.initvalues, recordOf] at he
        intro msg
        rw [← he.1]
        simp
      | badData =>
        simp [Joystick.initvalues, recordOf] at he
        intro msg
        rw [← he.1]
        simp

/-! ## Facts about read, close and operation sequences -/

theorem read_self_eq (h : Heap) (self : Joystick) (env : List ReadOutcome) :
    (Joystick.read h self env).2.2.1 = self := by
  unfold Joystick.read
  split
  · rfl
  · cases hr : Joystick.read_all_events h self env with
    | mk r rest =>
      cases rest with
      | mk h2 env2 => cases r <;> rfl

theorem read_heap_length (h : Heap) (self : Joystick) (env : List ReadOutcome)
    (a : Nat) :
    (((Joystick.read h self env).2.1).get a).length = (h.get a).length := by
  unfold Joystick.read
  split
  · rfl
  · cases hr : Joystick.read_all_events h self env with
    | mk r rest =>
      cases rest with
      | mk h2 env2 =>
        have hl := read_all_events_length self env h a
        rw [hr] at hl
        cases r <;> exact hl

theorem read_ok_refs (h : Heap) (self : Joystick) (env : List ReadOutcome)
    (refs : Nat × Nat) (h2 : Heap) (s2 : Joystick) (env2 : List ReadOutcome)
    (he : Joystick.read h self env = (Except.ok refs, h2, s2, env2)) :
    refs = (self.axes, self.buttons) ∧ s2 = self := by
  unfold Joystick.read at he
  split at he
  · exact absurd he (by simp)
  · cases hr : Joystick.read_all_events h self env with
    | mk r rest =>
      rw [hr] at he
      cases rest with
      | mk hh ee =>
        cases r with
        | ok u =>
          simp at he
          exact ⟨he.1.symm, he.2.2.1.symm⟩
        | error e2 => simp at he

theorem close_axes_eq (self : Joystick) :
    (Joystick.close self).axes = self.axes ∧
    (Joystick.close self).buttons = self.buttons := by
  unfold Joystick.close
  constructor <;> (split <;> rfl)

theorem step_fields (s : Heap × Joystick) (op : JoyOp) :
    (Joystick.step s op).2.axes = s.2.axes ∧
    (Joystick.step s op).2.buttons = s.2.buttons := by
  cases op with
  | jread env =>
    constructor
    · show ((Joystick.read s.1 s.2 env).2.2.1).axes = s.2.axes
      rw [read_self_eq]
    · show ((Joystick.read s.1 s.2 env).2.2.1).buttons = s.2.buttons
      rw [read_self_eq]
  | jclose => exact close_axes_eq s.2

theorem step_length (s : Heap × Joystick) (op : JoyOp) (a : Nat) :
    (((Joystick.step s op).1).get a).length = ((s.1).get a).length := by
  cases op with
  | jread env => exact read_heap_length s.1 s.2 env a
  | jclose => rfl

theorem run_facts (ops : List JoyOp) :
    ∀ (s : Heap × Joystick),
      (Joystick.run s ops).2.axes = s.2.axes ∧
      (Joystick.run s ops).2.buttons = s.2.buttons ∧
      ∀ a, (((Joystick.run s ops).1).get a).length = ((s.1).get a).length := by
  induction ops with
  | nil => intro s; exact ⟨rfl, rfl, fun a => rfl⟩
  | cons op ops ih =>
    intro s
    have h1 := ih (Joystick.step s op)
    exact ⟨h1.1.trans (step_fields s op).1,
           h1.2.1.trans (step_fields s op).2,
           fun a => (h1.2.2 a).trans (step_length s op a)⟩

/-! ## Facts about opening a device -/

theorem get_alloc_self (h : Heap) (v : List ℚ) :
    ((h.alloc v).1).get (h.alloc v).2 = v :=
  getD_append_self h.cells v []

theorem get_alloc_lt (h : Heap) (v : List ℚ) (a : Nat)
    (ha : a < h.cells.length) : ((h.alloc v).1).get a = h.get a :=
  getD_append_lt h.cells v [] a ha

theorem initvalues_length_eq (self : Joystick) (n : Nat) (h : Heap)
    (env : List ReadOutcome) (r : Except PyError Unit) (h2 : Heap)
    (env2 : List ReadOutcome)
    (hi : Joystick.initvalues n h self env = (r, h2, env2)) (a : Nat) :
    (h2.get a).length = (h.get a).length := by
  have hl := initvalues_length self n h env a
  rw [hi] at hl
  exact hl

theorem openDevice_ok (h : Heap) (self : Joystick) (node : DeviceNode)
    (did : Int) (h2 : Heap) (s2 : Joystick) (env2 : List ReadOutcome)
    (ho : Joystick.openDevice h self node did = (Except.ok (), h2, s2, env2)) :
    (h2.get s2.axes).length = node.axesCount ∧
    (h2.get s2.buttons).length = node.buttonsCount ∧
    s2.opened = true ∧
    env2.length + (node.axesCount + node.buttonsCount) = node.queue.length := by
  dsimp only [Joystick.openDevice] at ho
  split at ho
  · exact absurd ho (by simp)
  · split at ho
    · exact absurd ho (by simp)
    · split at ho
      · exact absurd ho (by simp)
      · split at ho
        · rename_i u h3 rest hi
          cases u
          simp only [Prod.mk.injEq, Except.ok.injEq, true_and] at ho
          obtain ⟨hh, hs, henv⟩ := ho
          subst hh
          subst hs
          subst henv
          have hax : (((h.alloc (List.replicate node.axesCount 0)).1.alloc
              (List.replicate node.buttonsCount 0)).1.get
              (h.alloc (List.replicate node.axesCount 0)).2).length
              = node.axesCount := by
            rw [get_alloc_lt _ _ _ (by simp [Heap.alloc]), get_alloc_self]
            simp
          have hbt : (((h.alloc (List.replicate node.axesCount 0)).1.alloc
              (List.replicate node.buttonsCount 0)).1.get
              ((h.alloc (List.replicate node.axesCount 0)).1.alloc
                (List.replicate node.buttonsCount 0)).2).length
              = node.buttonsCount := by
            rw [get_alloc_self]
            simp
          refine ⟨?_, ?_, rfl, ?_⟩
          · rw [initvalues_length_eq _ _ _ _ _ _ _ hi]
            exact hax
          · rw [initvalues_length_eq _ _ _ _ _ _ _ hi]
            exact hbt
          · have hc := initvalues_ok_env _ _ _ _ _ _ hi
            rw [hax, hbt] at hc
            exact hc
        · exact absurd ho (by simp)

theorem openDevice_same_id_not_already (h : Heap) (self : Joystick)
    (node : DeviceNode) (hopen : self.opened = true) :
    (Joystick.openDevice h self node self.device_id).1
      ≠ Except.error (PyError.exception "A joystick is already opened") := by
  intro hco
  dsimp only [Joystick.openDevice] at hco
  split at hco
  · rename_i hc
    exact absurd rfl hc.2
  · split at hco
    · simp at hco
    · split at hco
      · simp at hco
      · split at hco
        · simp at hco
        · rename_i e h3 rest hi
          simp at hco
          exact initvalues_error_not_exception _ _ _ _ _ _ _ hi _ hco

/-! ## Claim theorems -/

/-- Claim C6: on an opened instance, folding an axis or button event whose
control index is at or past the length of the corresponding state array
raises an IndexError that propagates out of the drain and out of read():
it is neither silently ignored nor an out-of-bounds write (the heap is
unchanged), and the except-IOError handler of the drain does not absorb it. -/
theorem c6_out_of_bounds_index_error (h : Heap) (self : Joystick) (e : JSData)
    (rest : List ReadOutcome)
    (hoob : (e.etype &&& JS_EVENT_AXIS ≠ 0 ∧
             (h.get self.axes).length ≤ e.number) ∨
            (e.etype &&& JS_EVENT_AXIS = 0 ∧ e.etype &&& JS_EVENT_BUTTON ≠ 0 ∧
             (h.get self.buttons).length ≤ e.number))
    (hop : self.opened = true) :
    Joystick.updatestate h self e = .error .indexError ∧
    Joystick.read_all_events h self (.record e :: rest)
      = (.error .indexError, h, rest) ∧
    Joystick.read h self (.record e :: rest)
      = (.error .indexError, h, self, rest) := by
  have hup : Joystick.updatestate h self e = .error .indexError := by
    unfold Joystick.updatestate
    rcases hoob with ⟨hax, hlen⟩ | ⟨hax, hbtn, hlen⟩
    · rw [if_pos hax, if_neg (by omega)]
    · rw [if_neg (by simp [hax]), if_pos hbtn, if_neg (by omega)]
  have hdrain : Joystick.read_all_events h self (.record e :: rest)
      = (.error .indexError, h, rest) := by
    simp only [Joystick.read_all_events, recordOf]
    rw [hup]
  refine ⟨hup, hdrain, ?_⟩
  unfold Joystick.read
  rw [if_neg (by simp [hop]), hdrain]

theorem c6_out_of_bounds_witness :
    Joystick.updatestate ⟨[[0]]⟩ ⟨true,1,0,true,0⟩ ⟨0,1,2,5⟩
      = .error .indexError ∧
    Joystick.read_all_events ⟨[[0]]⟩ ⟨true,1,0,true,0⟩ [.record ⟨0,1,2,5⟩]
      = (.error .indexError, ⟨[[0]]⟩, []) ∧
    Joystick.read ⟨[[0]]⟩ ⟨true,1,0,true,0⟩ [.record ⟨0,1,2,5⟩]
      = (.error .indexError, ⟨[[0]]⟩, ⟨true,1,0,true,0⟩, []) :=
  c6_out_of_bounds_index_error ⟨[[0]]⟩ ⟨true,1,0,true,0⟩ ⟨0,1,2,5⟩ []
    (Or.inl ⟨by decide, by decide⟩) rfl

/-- Claim C7: read() on an instance that is not opened fails with the
"Joystick device not opened" error and leaves the heap (so both state
arrays), the instance fields (opened flag, device id, handle, array
references) and the device stream completely unchanged. -/
theorem c7_read_not_opened (h : Heap) (self : Joystick)
    (env : List ReadOutcome) (hopen : self.opened = false) :
    Joystick.read h self env
      = (Except.error (PyError.exception "Joystick device not opened"),
         h, self, env) := by
  unfold Joystick.read
  rw [if_pos hopen]

theorem c7_read_not_opened_witness :
    Joystick.read ⟨[[0],[0]]⟩ ⟨false,1,0,false,-1⟩ [.record ⟨0,1,2,0⟩]
      = (Except.error (PyError.exception "Joystick device not opened"),
         ⟨[[0],[0]]⟩, ⟨false,1,0,false,-1⟩, [.record ⟨0,1,2,0⟩]) :=
  c7_read_not_opened ⟨[[0],[0]]⟩ ⟨false,1,0,false,-1⟩ [.record ⟨0,1,2,0⟩] rfl

/-- Claim C8: folding an in-bounds axis event stores exactly the event's
signed 16-bit value divided by 32768, the stored value read back equals that
quotient and lies in the interval from -1 to 1; in particular value 16384
folds to 1/2 and value -32768 folds to -1. -/
theorem c8_axis_normalization (h : Heap) (self : Joystick) (e : JSData)
    (hax : e.etype &&& JS_EVENT_AXIS ≠ 0)
    (hlt : e.number < (h.get self.axes).length)
    (hlo : -32768 ≤ e.value) (hhi : e.value ≤ 32767) :
    Joystick.updatestate h self e
      = .ok (h.set self.axes
          ((h.get self.axes).set e.number ((e.value : ℚ) / 32768))) ∧
    ((h.set self.axes
        ((h.get self.axes).set e.number ((e.value : ℚ) / 32768))).get
        self.axes).getD e.number 0 = (e.value : ℚ) / 32768 ∧
    -1 ≤ (e.value : ℚ) / 32768 ∧ (e.value : ℚ) / 32768 ≤ 1 ∧
    Joystick.updatestate ⟨[[0]]⟩ ⟨true,1,0,true,0⟩ ⟨0,16384,2,0⟩
      = .ok ⟨[[1/2]]⟩ ∧
    Joystick.updatestate ⟨[[0]]⟩ ⟨true,1,0,true,0⟩ ⟨0,-32768,2,0⟩
      = .ok ⟨[[-1]]⟩ := by
  have haddr : self.axes < h.cells.length := by
    by_contra hc
    push_neg at hc
    have hnil : h.get self.axes = [] := List.getD_eq_default _ _ hc
    rw [hnil] at hlt
    simp at hlt
  refine ⟨?_, ?_, ?_, ?_, ?_, ?_⟩
  · unfold Joystick.updatestate
    rw [if_pos hax, if_pos hlt]
  · have h1 : (h.set self.axes
        ((h.get self.axes).set e.number ((e.value : ℚ) / 32768))).get self.axes
        = (h.get self.axes).set e.number ((e.value : ℚ) / 32768) :=
      getD_set_self _ _ _ _ haddr
    rw [h1]
    exact getD_set_self _ _ _ _ hlt
  · rw [le_div_iff₀ (by norm_num : (0:ℚ) < 32768)]
    have hcast : (-32768 : ℚ) ≤ (e.value : ℚ) := by exact_mod_cast hlo
    linarith
  · rw [div_le_one (by norm_num : (0:ℚ) < 32768)]
    have hcast : (e.value : ℚ) ≤ 32767 := by exact_mod_cast hhi
    linarith
  · norm_num [Joystick.updatestate, Heap.get, Heap.set, JS_EVENT_AXIS,
      List.getD]
  · norm_num [Joystick.updatestate, Heap.get, Heap.set, JS_EVENT_AXIS,
      List.getD]

theorem c8_axis_normalization_witness :
    Joystick.updatestate ⟨[[0]]⟩ ⟨true,1,0,true,0⟩ ⟨0,16384,2,0⟩
      = .ok ((⟨[[0]]⟩ : Heap).set 0
          (((⟨[[0]]⟩ : Heap).get 0).set 0 (((16384 : Int) : ℚ) / 32768))) ∧
    (((⟨[[0]]⟩ : Heap).set 0
        (((⟨[[0]]⟩ : Heap).get 0).set 0 (((16384 : Int) : ℚ) / 32768))).get
        0).getD 0 0 = ((16384 : Int) : ℚ) / 32768 ∧
    -1 ≤ ((16384 : Int) : ℚ) / 32768 ∧ ((16384 : Int) : ℚ) / 32768 ≤ 1 ∧
    Joystick.updatestate ⟨[[0]]⟩ ⟨true,1,0,true,0⟩ ⟨0,16384,2,0⟩
      = .ok ⟨[[1/2]]⟩ ∧
    Joystick.updatestate ⟨[[0]]⟩ ⟨true,1,0,true,0⟩ ⟨0,-32768,2,0⟩
      = .ok ⟨[[-1]]⟩ :=
  c8_axis_normalization ⟨[[0]]⟩ ⟨true,1,0,true,0⟩ ⟨0,16384,2,0⟩
    (by decide) (by decide) (by decide) (by decide)

/-- Claim C10: an event record with both the axis bit and the button bit set
is treated exclusively as an axis event: the axis array is updated at the
event index with the normalized value, the buttons array is unchanged, and
the decoder likewise classifies it as an axis event (the axis branch takes
precedence). -/
theorem c10_axis_bit_precedence (h : Heap) (self : Joystick) (e : JSData)
    (hax : e.etype &&& JS_EVENT_AXIS ≠ 0)
    (hbtn : e.etype &&& JS_EVENT_BUTTON ≠ 0)
    (hlt : e.number < (h.get self.axes).length)
    (hdistinct : self.axes ≠ self.buttons) :
    Joystick.updatestate h self e
      = .ok (h.set self.axes
          ((h.get self.axes).set e.number ((e.value : ℚ) / 32768))) ∧
    (h.set self.axes
        ((h.get self.axes).set e.number ((e.value : ℚ) / 32768))).get
        self.buttons = h.get self.buttons ∧
    Joystick.decode_event e
      = some ⟨TYPE_AXIS, e.number, (e.value : ℚ) / 32768⟩ := by
  refine ⟨?_, ?_, ?_⟩
  · unfold Joystick.updatestate
    rw [if_pos hax, if_pos hlt]
  · exact getD_set_ne _ _ _ _ _ hdistinct
  · unfold Joystick.decode_event
    rw [if_pos hax]

theorem c10_axis_bit_precedence_witness :
    Joystick.updatestate ⟨[[0],[7]]⟩ ⟨true,1,0,true,0⟩ ⟨0,16384,3,0⟩
      = .ok ((⟨[[0],[7]]⟩ : Heap).set 0
          (((⟨[[0],[7]]⟩ : Heap).get 0).set 0 (((16384 : Int) : ℚ) / 32768))) ∧
    ((⟨[[0],[7]]⟩ : Heap).set 0
        (((⟨[[0],[7]]⟩ : Heap).get 0).set 0 (((16384 : Int) : ℚ) / 32768))).get 1
      = (⟨[[0],[7]]⟩ : Heap).get 1 ∧
    Joystick.decode_event ⟨0,16384,3,0⟩
      = some ⟨TYPE_AXIS, 0, ((16384 : Int) : ℚ) / 32768⟩ :=
  c10_axis_bit_precedence ⟨[[0],[7]]⟩ ⟨true,1,0,true,0⟩ ⟨0,16384,3,0⟩
    (by decide) (by decide) (by decide) (by decide)

/-- Claim C1 (counterexample): read() does not return a by-value snapshot.
Concretely: a first read() on an opened one-axis one-button instance returns
the references (0, 1) and leaves the heap unchanged; a second read() that
folds one axis event still returns (0, 1), and afterwards the contents
observed through address 0 of the first read's returned snapshot have
changed. -/
theorem c1_read_snapshot_counterexample :
    Joystick.read ⟨[[0],[0]]⟩ ⟨true,1,0,true,0⟩ []
      = (Except.ok (0,1), ⟨[[0],[0]]⟩, ⟨true,1,0,true,0⟩, []) ∧
    (Joystick.read ⟨[[0],[0]]⟩ ⟨true,1,0,true,0⟩
        [ReadOutcome.record ⟨0,16384,2,0⟩]).1 = Except.ok (0,1) ∧
    ((Joystick.read ⟨[[0],[0]]⟩ ⟨true,1,0,true,0⟩
        [ReadOutcome.record ⟨0,16384,2,0⟩]).2.1).get 0
      ≠ (⟨[[0],[0]]⟩ : Heap).get 0 := by
  refine ⟨by decide, ?_⟩
  norm_num [Joystick.read, Joystick.read_all_events, recordOf,
    Joystick.updatestate, Heap.get, Heap.set, JS_EVENT_AXIS, JS_EVENT_BUTTON,
    List.getD]

/-- Claim C1 (amended): read() returns the axis and button arrays by
reference, not by value: whenever read() succeeds, the returned pair is
exactly the instance's internal array addresses, and those addresses remain
installed in the instance, so later reads fold new events into the very
objects the caller already holds. -/
theorem c1_read_snapshot_by_reference (h : Heap) (self : Joystick)
    (env : List ReadOutcome) (refs : Nat × Nat) (h2 : Heap) (s2 : Joystick)
    (env2 : List ReadOutcome)
    (he : Joystick.read h self env = (Except.ok refs, h2, s2, env2)) :
    refs = (self.axes, self.buttons) ∧ s2 = self :=
  read_ok_refs h self env refs h2 s2 env2 he

theorem c1_read_snapshot_by_reference_witness :
    ((0:Nat), (1:Nat)) = ((⟨true,1,0,true,0⟩ : Joystick).axes,
      (⟨true,1,0,true,0⟩ : Joystick).buttons) ∧
    (⟨true,1,0,true,0⟩ : Joystick) = (⟨true,1,0,true,0⟩ : Joystick) :=
  c1_read_snapshot_by_reference ⟨[[0],[0]]⟩ ⟨true,1,0,true,0⟩ [] (0,1)
    ⟨[[0],[0]]⟩ ⟨true,1,0,true,0⟩ [] (by decide)

/-- Claim C2 (counterexample): an IOError with errno 19 (ENODEV, not the
would-block errno EAGAIN = 11) occurring during the drain is swallowed: the
drain terminates normally with no error surfaced to the caller. -/
theorem c2_drain_counterexample :
    Joystick.read_all_events ⟨[[0],[0]]⟩ ⟨true,1,0,true,0⟩
        [ReadOutcome.ioErr 19]
      = (Except.ok (), ⟨[[0],[0]]⟩, []) ∧ (19 : Nat) ≠ EAGAIN := by decide

/-- Claim C2 (amended): a would-block signal terminates the drain normally,
but so does every other IOError: the except-IOError handler catches the
whole class, so the drain never surfaces an IOError to the caller; the only
errors the drain surfaces are non-IOError failures (IndexError from the
fold, struct.error from unpacking). -/
theorem c2_drain_swallows_every_ioerror (h : Heap) (self : Joystick)
    (env rest : List ReadOutcome) (n : Nat) :
    Joystick.read_all_events h self (ReadOutcome.ioErr n :: rest)
      = (Except.ok (), h, rest) ∧
    (∀ err, (Joystick.read_all_events h self env).1 = Except.error err →
       err = PyError.indexError ∨ err = PyError.structError) :=
  ⟨rfl, fun err he => read_all_events_error self env h err he⟩

theorem c2_drain_swallows_witness :
    Joystick.read_all_events ⟨[[0]]⟩ ⟨true,1,0,true,0⟩ [ReadOutcome.ioErr EAGAIN]
      = (Except.ok (), ⟨[[0]]⟩, []) ∧
    (PyError.structError = PyError.indexError ∨
     PyError.structError = PyError.structError) :=
  ⟨(c2_drain_swallows_every_ioerror ⟨[[0]]⟩ ⟨true,1,0,true,0⟩ [] [] EAGAIN).1,
   (c2_drain_swallows_every_ioerror ⟨[[0]]⟩ ⟨true,1,0,true,0⟩
       [ReadOutcome.badData] [] EAGAIN).2 PyError.structError (by decide)⟩

/-- Claim C3 (counterexample): folding a button press event with value 1
stores the raw value 1, not 1/32768: the resulting buttons cell is [1], the
claimed result heap with buttons cell [1/32768] is not produced, while the
separate decoder does produce the scaled value 1/32768 for the same event. -/
theorem c3_button_fold_counterexample :
    Joystick.updatestate ⟨[[0],[0]]⟩ ⟨true,1,0,true,0⟩ ⟨0,1,1,0⟩
      = .ok ⟨[[0],[1]]⟩ ∧
    Joystick.updatestate ⟨[[0],[0]]⟩ ⟨true,1,0,true,0⟩ ⟨0,1,1,0⟩
      ≠ .ok ⟨[[0],[1/32768]]⟩ ∧
    Joystick.decode_event ⟨0,1,1,0⟩ = some ⟨1, 0, 1/32768⟩ := by
  norm_num [Joystick.updatestate, Joystick.decode_event, Heap.get, Heap.set,
    JS_EVENT_AXIS, JS_EVENT_BUTTON, TYPE_BUTTON, List.getD]

/-- Claim C3 (amended): the state fold stores the raw event value for button
events (so a 0/1 press is stored as 0/1); the 32768.0 divisor is applied to
button events only in the separate decode function, which is not on the
read/fold path and would yield a near-zero float for a 0/1 press. -/
theorem c3_button_fold_stores_raw_value (h : Heap) (self : Joystick)
    (e : JSData) (hax : e.etype &&& JS_EVENT_AXIS = 0)
    (hbtn : e.etype &&& JS_EVENT_BUTTON ≠ 0)
    (hlt : e.number < (h.get self.buttons).length) :
    Joystick.updatestate h self e
      = .ok (h.set self.buttons
          ((h.get self.buttons).set e.number (e.value : ℚ))) ∧
    Joystick.decode_event e
      = some ⟨TYPE_BUTTON, e.number, (e.value : ℚ) / 32768⟩ := by
  constructor
  · unfold Joystick.updatestate
    rw [if_neg (by simp [hax]), if_pos hbtn, if_pos hlt]
  · unfold Joystick.decode_event
    rw [if_neg (by simp [hax]), if_pos hbtn]

theorem c3_button_fold_witness :
    Joystick.updatestate ⟨[[0],[0]]⟩ ⟨true,1,0,true,0⟩ ⟨0,1,1,0⟩
      = .ok ((⟨[[0],[0]]⟩ : Heap).set 1
          (((⟨[[0],[0]]⟩ : Heap).get 1).set 0 ((1 : Int) : ℚ))) ∧
    Joystick.decode_event ⟨0,1,1,0⟩
      = some ⟨TYPE_BUTTON, 0, ((1 : Int) : ℚ) / 32768⟩ :=
  c3_button_fold_stores_raw_value ⟨[[0],[0]]⟩ ⟨true,1,0,true,0⟩ ⟨0,1,1,0⟩
    (by decide) (by decide) (by decide)

/-- Claim C4 (counterexample): calling open() again with the same device id
on an opened instance does not bypass the open procedure. On an instance
opened with id 5 owning a 1-axis, 1-button state, reopening id 5 against a
device reporting 2 axes and 1 button with 3 queued initial records succeeds,
re-queries the capabilities (fresh state arrays of the new sizes, the axes
array now has length 2 where the old one had length 1) and re-drains all 3
initial-value records (the remaining stream is empty). -/
theorem c4_reopen_counterexample :
    Joystick.openDevice ⟨[[1/2],[1]]⟩ ⟨true,1,0,true,5⟩
        ⟨0, 2, 0, 1, [.record ⟨0,16384,2,0⟩, .record ⟨0,16384,2,1⟩,
                      .record ⟨0,1,1,0⟩]⟩ 5
      = (.ok (), ⟨[[1/2],[1],[1/2,1/2],[1]]⟩, ⟨true,3,2,true,5⟩, []) ∧
    ((⟨[[1/2],[1],[1/2,1/2],[1]]⟩ : Heap).get
        ((⟨true,3,2,true,5⟩ : Joystick).axes)).length = 2 ∧
    ((⟨[[1/2],[1]]⟩ : Heap).get ((⟨true,1,0,true,5⟩ : Joystick).axes)).length
      = 1 := by
  refine ⟨?_, by decide, by decide⟩
  norm_num [Joystick.openDevice, Joystick.initvalues, recordOf,
    Joystick.updatestate, Heap.get, Heap.set, Heap.alloc, JS_EVENT_AXIS,
    JS_EVENT_BUTTON, List.getD, List.replicate, List.set]

/-- Claim C4 (amended): reopening the already-open device id is allowed (the
"already open" error is only raised for a different id), but it does not
bypass the open procedure: on success the state arrays are freshly sized
from a renewed capability query and the initial-value drain consumes exactly
axis-count plus button-count records from the device queue again. -/
theorem c4_reopen_same_id_reruns_open (h : Heap) (self : Joystick)
    (node : DeviceNode) (hopen : self.opened = true) :
    (Joystick.openDevice h self node self.device_id).1
      ≠ Except.error (PyError.exception "A joystick is already opened") ∧
    (∀ (h2 : Heap) (s2 : Joystick) (env2 : List ReadOutcome),
      Joystick.openDevice h self node self.device_id
        = (Except.ok (), h2, s2, env2) →
      (h2.get s2.axes).length = node.axesCount ∧
      (h2.get s2.buttons).length = node.buttonsCount ∧
      env2.length + (node.axesCount + node.buttonsCount)
        = node.queue.length) :=
  ⟨openDevice_same_id_not_already h self node hopen,
   fun h2 s2 env2 ho =>
     ⟨(openDevice_ok h self node self.device_id h2 s2 env2 ho).1,
      (openDevice_ok h self node self.device_id h2 s2 env2 ho).2.1,
      (openDevice_ok h self node self.device_id h2 s2 env2 ho).2.2.2⟩⟩

theorem c4_reopen_same_id_witness :
    ((⟨[[1/2],[1],[1/2,1/2],[1]]⟩ : Heap).get 2).length = 2 ∧
    ((⟨[[1/2],[1],[1/2,1/2],[1]]⟩ : Heap).get 3).length = 1 ∧
    ([] : List ReadOutcome).length + (2 + 1)
      = ([ReadOutcome.record ⟨0,16384,2,0⟩, ReadOutcome.record ⟨0,16384,2,1⟩,
          ReadOutcome.record ⟨0,1,1,0⟩]).length :=
  (c4_reopen_same_id_reruns_open ⟨[[1/2],[1]]⟩ ⟨true,1,0,true,5⟩
      ⟨0, 2, 0, 1, [.record ⟨0,16384,2,0⟩, .record ⟨0,16384,2,1⟩,
                    .record ⟨0,1,1,0⟩]⟩ rfl).2
    ⟨[[1/2],[1],[1/2,1/2],[1]]⟩ ⟨true,3,2,true,5⟩ []
    (by norm_num [Joystick.openDevice, Joystick.initvalues, recordOf,
      Joystick.updatestate, Heap.get, Heap.set, Heap.alloc, JS_EVENT_AXIS,
      JS_EVENT_BUTTON, List.getD, List.replicate, List.set])

/-- Claim C5 (counterexample): the device scan is aborted by one bad entry:
with a readable first entry and a second entry whose name file is
unreadable, devices() raises the IOError and returns no descriptors, not
even the readable first one. -/
theorem c5_devices_counterexample :
    Joystick.devices [⟨0, some " Gamepad "⟩, ⟨1, none⟩]
      = .error (.ioError 2) ∧
    Joystick.devices [⟨0, some " Gamepad "⟩, ⟨1, none⟩]
      ≠ .ok [⟨0, "Gamepad"⟩] := by decide

/-- Claim C5 (amended): enumeration has no per-entry error handling: when
every entry has a readable name file the scan returns a descriptor for each
entry (id plus stripped name), and as soon as any entry's name file is
missing or unreadable the whole scan aborts with the IOError, returning no
descriptors at all. -/
theorem c5_devices_scan_aborts (entries : List SysEntry) :
    ((∀ e ∈ entries, e.name ≠ none) →
      Joystick.devices entries
        = .ok (entries.map fun e =>
            { id := e.id, name := (e.name.getD "").trim })) ∧
    ((∃ e ∈ entries, e.name = none) →
      Joystick.devices entries = .error (.ioError 2)) := by
  induction entries with
  | nil =>
    constructor
    · intro _; rfl
    · intro hex; simp at hex
  | cons e rest ih =>
    constructor
    · intro hall
      cases hn : e.name with
      | none => exact absurd hn (hall e (by simp))
      | some s =>
        simp only [Joystick.devices, hn]
        rw [ih.1 (fun x hx => hall x (by simp [hx]))]
        simp [hn]
    · intro hex
      cases hn : e.name with
      | none => simp [Joystick.devices, hn]
      | some s =>
        have hrest : ∃ x ∈ rest, x.name = none := by
          rcases hex with ⟨x, hx, hnone⟩
          rcases List.mem_cons.mp hx with hxe | hxr
          · exact absurd (hxe ▸ hnone) (by simp [hn])
          · exact ⟨x, hxr, hnone⟩
        simp only [Joystick.devices, hn]
        rw [ih.2 hrest]

theorem c5_devices_scan_witness :
    Joystick.devices [⟨0, some " Gamepad "⟩]
      = .ok ([(⟨0, some " Gamepad "⟩ : SysEntry)].map fun e =>
          { id := e.id, name := (e.name.getD "").trim }) ∧
    Joystick.devices [⟨1, none⟩] = .error (.ioError 2) :=
  ⟨(c5_devices_scan_aborts [⟨0, some " Gamepad "⟩]).1 (by decide),
   (c5_devices_scan_aborts [⟨1, none⟩]).2 ⟨⟨1, none⟩, by decide, rfl⟩⟩

/-- Claim C9: a successful open() against a device reporting counts (a, b)
leaves the axis and button arrays with lengths a and b; those lengths are
preserved by every subsequent sequence of read and close operations (which
cover the drain and the fold), and in particular any immediately following
successful read() returns references whose observed arrays have lengths a
and b. -/
theorem c9_state_array_lengths_fixed (h : Heap) (self : Joystick)
    (node : DeviceNode) (did : Int) (h2 : Heap) (s2 : Joystick)
    (env2 : List ReadOutcome)
    (ho : Joystick.openDevice h self node did = (Except.ok (), h2, s2, env2)) :
    (h2.get s2.axes).length = node.axesCount ∧
    (h2.get s2.buttons).length = node.buttonsCount ∧
    (∀ ops : List JoyOp,
      (((Joystick.run (h2, s2) ops).1).get
          ((Joystick.run (h2, s2) ops).2.axes)).length = node.axesCount ∧
      (((Joystick.run (h2, s2) ops).1).get
          ((Joystick.run (h2, s2) ops).2.buttons)).length
        = node.buttonsCount) ∧
    (∀ (env3 : List ReadOutcome) (refs : Nat × Nat) (h4 : Heap)
       (s4 : Joystick) (env4 : List ReadOutcome),
      Joystick.read h2 s2 env3 = (Except.ok refs, h4, s4, env4) →
      (h4.get refs.1).length = node.axesCount ∧
      (h4.get refs.2).length = node.buttonsCount) := by
  obtain ⟨hA, hB, hop, hq⟩ := openDevice_ok h self node did h2 s2 env2 ho
  refine ⟨hA, hB, ?_, ?_⟩
  · intro ops
    obtain ⟨r1, r2, r3⟩ := run_facts ops (h2, s2)
    constructor
    · rw [r1, r3 s2.axes]
      exact hA
    · rw [r2, r3 s2.buttons]
      exact hB
  · intro env3 refs h4 s4 env4 hr
    obtain ⟨hrefs, hs4⟩ := read_ok_refs h2 s2 env3 refs h4 s4 env4 hr
    subst hrefs
    have hl1 := read_heap_length h2 s2 env3 s2.axes
    have hl2 := read_heap_length h2 s2 env3 s2.buttons
    rw [hr] at hl1 hl2
    exact ⟨hl1.trans hA, hl2.trans hB⟩

theorem c9_state_array_lengths_witness :
    ((⟨[[],[],[1/2],[1]]⟩ : Heap).get 2).length = 1 ∧
    ((⟨[[],[],[1/2],[1]]⟩ : Heap).get 3).length = 1 ∧
    ((((Joystick.run (⟨[[],[],[1/2],[1]]⟩, ⟨true,3,2,true,0⟩)
          [JoyOp.jread []]).1).get
        ((Joystick.run (⟨[[],[],[1/2],[1]]⟩, ⟨true,3,2,true,0⟩)
          [JoyOp.jread []]).2.axes)).length = 1 ∧
     (((Joystick.run (⟨[[],[],[1/2],[1]]⟩, ⟨true,3,2,true,0⟩)
          [JoyOp.jread []]).1).get
        ((Joystick.run (⟨[[],[],[1/2],[1]]⟩, ⟨true,3,2,true,0⟩)
          [JoyOp.jread []]).2.buttons)).length = 1) ∧
    (((⟨[[],[],[-1],[1]]⟩ : Heap).get 2).length = 1 ∧
     ((⟨[[],[],[-1],[1]]⟩ : Heap).get 3).length = 1) := by
  have hmain := c9_state_array_lengths_fixed ⟨[[],[]]⟩ ⟨false,0,1,false,-1⟩
    ⟨0, 1, 0, 1, [.record ⟨0,16384,2,0⟩, .record ⟨0,1,1,0⟩]⟩ 0
    ⟨[[],[],[1/2],[1]]⟩ ⟨true,3,2,true,0⟩ []
    (by norm_num [Joystick.openDevice, Joystick.initvalues, recordOf,
      Joystick.updatestate, Heap.get, Heap.set, Heap.alloc, JS_EVENT_AXIS,
      JS_EVENT_BUTTON, List.getD, List.replicate, List.set])
  refine ⟨hmain.1, hmain.2.1, hmain.2.2.1 [JoyOp.jread []], ?_⟩
  exact hmain.2.2.2 [.record ⟨0,-32768,2,0⟩] (2, 3) ⟨[[],[],[-1],[1]]⟩
    ⟨true,3,2,true,0⟩ []
    (by norm_num [Joystick.read, Joystick.read_all_events, recordOf,
      Joystick.updatestate, Heap.get, Heap.set, JS_EVENT_AXIS,
      JS_EVENT_BUTTON, List.getD])
